import Mathlib

/-!
Shallow embedding of `src/ykhsmauth/ykhsmauth.c` (the YubiKey HSM-auth
host-side protocol layer) and proofs about it.

Bytes are modelled as `Nat` values below 256 where it matters; buffers are
`List Nat`.  Nullable C pointers are modelled as `Option`; a pointer/length
pair that the code reads is modelled as the list of bytes it points to, the
C length parameter being the list length.  The PC/SC transport exchange is
modelled as an explicit input of type `Except Unit (List Nat)`:
`.error ()` is a failed `SCardTransmit` and `.ok raw` is the raw byte string
received from the card (payload followed by the two status-word bytes).
-/

/-- Modelled from the spec: `YKHSMAUTH_PW_LEN`, declared in the public header
which is not under `src/` (spec §3: fixed administrative-key length and
credential-password field width). -/
def YKHSMAUTH_PW_LEN : Nat := 16

/-- Modelled from the spec: `YKHSMAUTH_SESSION_KEY_LEN`, declared in the
missing public header (spec §3: each session key is exactly this long; the
source comment `3 * YKHSMAUTH_KEY_LEN + YKHSMAUTH_HOST_CRYPTO_LEN + 2 = 58`
pins the value 16). -/
def YKHSMAUTH_SESSION_KEY_LEN : Nat := 16

/-- Modelled from the spec: `YKHSMAUTH_MIN_LABEL_LEN` from the missing
public header (spec §3: labels are bounded to `[MIN_LABEL_LEN, MAX_LABEL_LEN]`). -/
def YKHSMAUTH_MIN_LABEL_LEN : Nat := 1

/-- Modelled from the spec: `YKHSMAUTH_MAX_LABEL_LEN` from the missing
public header. -/
def YKHSMAUTH_MAX_LABEL_LEN : Nat := 64

/-- Modelled from the spec: `YKHSMAUTH_YUBICO_AES128_ALGO` from the missing
public header (the symmetric-128 algorithm identifier). -/
def YKHSMAUTH_YUBICO_AES128_ALGO : Nat := 38

/-- Modelled from the spec: `YKHSMAUTH_YUBICO_ECP256_ALGO` from the missing
public header (the elliptic-curve-P256 algorithm identifier). -/
def YKHSMAUTH_YUBICO_ECP256_ALGO : Nat := 39

/-- Modelled from the spec: `YKHSMAUTH_YUBICO_ECP256_PUBKEY_LEN` from the
missing public header (an uncompressed P-256 point: 65 bytes). -/
def YKHSMAUTH_YUBICO_ECP256_PUBKEY_LEN : Nat := 65

/-- Modelled from the spec: `YKHSMAUTH_YUBICO_ECP256_PRIVKEY_LEN` from the
missing public header (a P-256 scalar: 32 bytes). -/
def YKHSMAUTH_YUBICO_ECP256_PRIVKEY_LEN : Nat := 32

/-- Modelled from the spec: `YKHSMAUTH_CARD_CRYPTO_LEN` from the missing
public header (spec §6: card-cryptogram minimum length). -/
def YKHSMAUTH_CARD_CRYPTO_LEN : Nat := 8

/-- Modelled from the spec: capacity of the fixed-size `apdu.st.data` buffer
of the command frame, from the missing `internal.h` (spec §3: data bytes are
capped at 255 plus the 5-byte header for short frames). -/
def APDU_DATA_SIZE : Nat := 255

/-- Modelled from the spec: `sizeof(((ykhsmauth_list_entry *) 0)->label)`,
the fixed label capacity of a list entry, from the missing public header
(`YKHSMAUTH_MAX_LABEL_LEN + 1` bytes, for the terminating NUL). -/
def LIST_ENTRY_LABEL_SIZE : Nat := 65

/-- Modelled from the spec: TLV tag constants from the missing public
header.  No claim depends on the numeric values, only on their being
distinct byte codes. -/
def YKHSMAUTH_TAG_LABEL : Nat := 0x71

/-- Modelled from the spec: list-entry tag from the missing public header. -/
def YKHSMAUTH_TAG_LABEL_LIST : Nat := 0x72

/-- Modelled from the spec: credential-password tag. -/
def YKHSMAUTH_TAG_PW : Nat := 0x73

/-- Modelled from the spec: algorithm tag. -/
def YKHSMAUTH_TAG_ALGO : Nat := 0x74

/-- Modelled from the spec: encryption-key-half tag. -/
def YKHSMAUTH_TAG_KEY_ENC : Nat := 0x75

/-- Modelled from the spec: MAC-key-half tag. -/
def YKHSMAUTH_TAG_KEY_MAC : Nat := 0x76

/-- Modelled from the spec: context tag. -/
def YKHSMAUTH_TAG_CONTEXT : Nat := 0x77

/-- Modelled from the spec: card-cryptogram (response) tag. -/
def YKHSMAUTH_TAG_RESPONSE : Nat := 0x78

/-- Modelled from the spec: touch-policy tag. -/
def YKHSMAUTH_TAG_TOUCH : Nat := 0x7a

/-- Modelled from the spec: management-key tag. -/
def YKHSMAUTH_TAG_MGMKEY : Nat := 0x7b

/-- Modelled from the spec: card public-key tag. -/
def YKHSMAUTH_TAG_PUBKEY : Nat := 0x79

/-- Modelled from the spec: elliptic-curve private-key tag. -/
def YKHSMAUTH_TAG_PRIVKEY : Nat := 0x7c

/-- Modelled from the spec: `SW_SUCCESS` from the missing `internal.h`
(ISO 7816 success status word). -/
def SW_SUCCESS : Nat := 0x9000

/-- Modelled from the spec: the "authentication failed" status-word class
base from the missing `internal.h` (ISO 7816 `0x63Ck`: counter in the low
nibble). -/
def SW_AUTHENTICATION_FAILED : Nat := 0x63c0

/-- Modelled from the spec: "file full" status word. -/
def SW_FILE_FULL : Nat := 0x6a84

/-- Modelled from the spec: "file not found" status word. -/
def SW_FILE_NOT_FOUND : Nat := 0x6a82

/-- Modelled from the spec: "wrong data" status word. -/
def SW_WRONG_DATA : Nat := 0x6a80

/-- Modelled from the spec: "memory error" status word. -/
def SW_MEMORY_ERROR : Nat := 0x6581

/-- Modelled from the spec: "security status not satisfied" status word. -/
def SW_SECURITY_STATUS_NOT_SATISFIED : Nat := 0x6982

/-- Modelled from the spec: "file invalid" status word. -/
def SW_FILE_INVALID : Nat := 0x6983

/-- Modelled from the spec: "data invalid" status word. -/
def SW_DATA_INVALID : Nat := 0x6984

/-- Modelled from the spec: "instruction not supported" status word. -/
def SW_INS_NOT_SUPPORTED : Nat := 0x6d00

/-- The `ykhsmauth_rc` result enumeration of the public header (numeric
values are immaterial to every claim). -/
inductive ykhsmauth_rc where
  | SUCCESS
  | MEMORY_ERROR
  | PCSC_ERROR
  | GENERIC_ERROR
  | MEMORY_READ_ERROR
  | WRONG_PW
  | INVALID_PARAMS
  | ENTRY_NOT_FOUND
  | STORAGE_FULL
  | TOUCH_ERROR
  | ENTRY_INVALID
  | DATA_INVALID
  | NOT_SUPPORTED
deriving DecidableEq

open ykhsmauth_rc

/-- `encode_len` (ykhsmauth.c:29-43): emits the 1-, 2- or 3-byte TLV length
encoding of a `uint16_t` length into the buffer; the C return value (number
of bytes written) is the length of this list.  The `% 256` truncations are
the `uint8_t` stores. -/
def encode_len (len : Nat) : List Nat :=
  if 0xff < len then [0x82, (len >>> 8) % 256, len % 256]
  else if 0x7f < len then [0x81, len % 256]
  else [len % 256]

/-- `add_tag` (ykhsmauth.c:45-55): appends a tag byte, the encoded length of
`value_len + pad`, the value bytes and `pad` zero bytes to the frame's data
buffer (`apdu->st.lc` is the length of this list).  The `% 65536` is the
`uint16_t` parameter of `encode_len`. -/
def add_tag (dat : List Nat) (tag : Nat) (value : List Nat) (pad : Nat) : List Nat :=
  dat ++ [tag] ++ encode_len ((value.length + pad) % 65536) ++ value ++ List.replicate pad 0

/-- `translate_error` (ykhsmauth.c:64-89).  `retries` models the optional
`uint8_t *retries` out-parameter: `none` is a NULL pointer, `some r` a
pointer whose pointee currently holds `r`; the second component of the
result is the pointee after the call.  `sw &&& 0xf` is the C expression
`sw & ~0xfff0` after integer promotion of the 16-bit `sw`. -/
def translate_error (sw : Nat) (retries : Option Nat) : ykhsmauth_rc × Option Nat :=
  if sw &&& 0xfff0 = SW_AUTHENTICATION_FAILED then
    (WRONG_PW, match retries with
      | some _ => some (sw &&& 0xf)
      | none => none)
  else if sw = SW_FILE_FULL then (STORAGE_FULL, retries)
  else if sw = SW_FILE_NOT_FOUND then (ENTRY_NOT_FOUND, retries)
  else if sw = SW_WRONG_DATA then (INVALID_PARAMS, retries)
  else if sw = SW_MEMORY_ERROR then (MEMORY_ERROR, retries)
  else if sw = SW_SECURITY_STATUS_NOT_SATISFIED then (TOUCH_ERROR, retries)
  else if sw = SW_FILE_INVALID then (ENTRY_INVALID, retries)
  else if sw = SW_DATA_INVALID then (DATA_INVALID, retries)
  else if sw = SW_INS_NOT_SUPPORTED then (NOT_SUPPORTED, retries)
  else (GENERIC_ERROR, retries)

/-- The status-word table exactly as the spec states it (§4.2): the
"authentication failed" row matches on the high 12 bits and writes the low
nibble into the retries output when one is supplied; every other value,
including 0, is GenericError.  This definition follows the spec's words and
is compared against `translate_error`, which follows the source. -/
def translate_error_table (sw : Nat) (retries : Option Nat) : ykhsmauth_rc × Option Nat :=
  if sw / 16 = 0x63c then (WRONG_PW, retries.map fun _ => sw % 16)
  else if sw = 0x6a84 then (STORAGE_FULL, retries)
  else if sw = 0x6a82 then (ENTRY_NOT_FOUND, retries)
  else if sw = 0x6a80 then (INVALID_PARAMS, retries)
  else if sw = 0x6581 then (MEMORY_ERROR, retries)
  else if sw = 0x6982 then (TOUCH_ERROR, retries)
  else if sw = 0x6983 then (ENTRY_INVALID, retries)
  else if sw = 0x6984 then (DATA_INVALID, retries)
  else if sw = 0x6d00 then (NOT_SUPPORTED, retries)
  else (GENERIC_ERROR, retries)

/-- `send_data` (ykhsmauth.c:148-183): a failed `SCardTransmit` yields
`YKHSMAUTHR_PCSC_ERROR` (with `*sw` left at the 0 it was initialised to);
otherwise the status word is split off the last two received bytes
(big-endian) and the rest is the payload; fewer than two bytes leave the
buffer as the payload and `sw = 0`. -/
def send_data (recv : Except Unit (List Nat)) : ykhsmauth_rc × List Nat × Nat :=
  match recv with
  | .error _ => (PCSC_ERROR, [], 0)
  | .ok d =>
    if 2 ≤ d.length then
      (SUCCESS, d.take (d.length - 2),
        ((d.getD (d.length - 2) 0) <<< 8) ||| d.getD (d.length - 1) 0)
    else (SUCCESS, d, 0)

theorem and_hi12 (sw : Nat) (h : sw < 65536) : sw &&& 0xfff0 = 16 * (sw / 16) := by
  have h16 : 16 * (sw / 16) = (sw >>> 4) <<< 4 := by
    rw [Nat.shiftLeft_eq, Nat.shiftRight_eq_div_pow]
    norm_num
    ring
  rw [h16]
  apply Nat.eq_of_testBit_eq
  intro i
  rw [Nat.testBit_land, Nat.testBit_shiftLeft, Nat.testBit_shiftRight]
  by_cases h4 : 4 ≤ i
  · have hplus : 4 + (i - 4) = i := by omega
    rw [hplus]
    by_cases h16i : i < 16
    · have hbit : (0xfff0 : Nat).testBit i = true := by
        interval_cases i <;> decide
      rw [hbit]
      simp [h4]
    · have h1 : sw.testBit i = false := by
        apply Nat.testBit_eq_false_of_lt
        calc sw < 65536 := h
        _ = 2 ^ 16 := by norm_num
        _ ≤ 2 ^ i := Nat.pow_le_pow_right (by norm_num) (by omega)
      have h2 : (0xfff0 : Nat).testBit i = false := by
        apply Nat.testBit_eq_false_of_lt
        calc (0xfff0 : Nat) < 65536 := by norm_num
        _ = 2 ^ 16 := by norm_num
        _ ≤ 2 ^ i := Nat.pow_le_pow_right (by norm_num) (by omega)
      rw [h1, h2]
      simp
  · have hbit : (0xfff0 : Nat).testBit i = false := by
      interval_cases i <;> decide
    simp [hbit, h4]

theorem and_lo4 (sw : Nat) : sw &&& 0xf = sw % 16 := by
  have h := Nat.and_pow_two_sub_one_eq_mod sw 4
  norm_num at h
  exact h

/-- C2: for every 16-bit status word the translator returns exactly the
typed error of the spec's table — WrongCredential on the
authentication-failed class (writing the low nibble into the retries output
when one is supplied), the eight exact-match rows, and GenericError for
every other value including 0. -/
theorem c2_translate_error_matches_table (sw : Nat) (retries : Option Nat)
    (h : sw < 65536) :
    translate_error sw retries = translate_error_table sw retries := by
  have hA : (sw &&& 0xfff0 = SW_AUTHENTICATION_FAILED) ↔ sw / 16 = 0x63c := by
    unfold SW_AUTHENTICATION_FAILED
    rw [and_hi12 sw h]
    omega
  have hB : sw &&& 0xf = sw % 16 := and_lo4 sw
  cases retries with
  | none =>
    simp only [translate_error, translate_error_table, hA, hB,
      SW_FILE_FULL, SW_FILE_NOT_FOUND, SW_WRONG_DATA, SW_MEMORY_ERROR,
      SW_SECURITY_STATUS_NOT_SATISFIED, SW_FILE_INVALID, SW_DATA_INVALID,
      SW_INS_NOT_SUPPORTED, Option.map_none']
  | some r0 =>
    simp only [translate_error, translate_error_table, hA, hB,
      SW_FILE_FULL, SW_FILE_NOT_FOUND, SW_WRONG_DATA, SW_MEMORY_ERROR,
      SW_SECURITY_STATUS_NOT_SATISFIED, SW_FILE_INVALID, SW_DATA_INVALID,
      SW_INS_NOT_SUPPORTED, Option.map_some']

/-- Witness for C2 at the concrete status word `0x63c7` with a supplied
retries output. -/
theorem c2_witness :
    translate_error 0x63c7 (some 3) = translate_error_table 0x63c7 (some 3) :=
  c2_translate_error_matches_table 0x63c7 (some 3) (by norm_num)

/-- C6: for every 16-bit `n`, `encode_len` emits exactly the 1-, 2- or
3-byte encoding of the spec's three ranges, its return value is the number
of bytes emitted, and the emitted encoding uniquely determines `n`. -/
theorem c6_encode_len_cases (n : Nat) (h : n < 65536) :
    (n ≤ 0x7f → encode_len n = [n]) ∧
    (0x7f < n → n ≤ 0xff → encode_len n = [0x81, n]) ∧
    (0xff < n → encode_len n = [0x82, n >>> 8, n &&& 0xff]) ∧
    (encode_len n).length = (if 0xff < n then 3 else if 0x7f < n then 2 else 1) ∧
    (∀ m : Nat, m < 65536 → encode_len m = encode_len n → m = n) := by
  have hdiv : ∀ k : Nat, k >>> 8 = k / 256 := by
    intro k
    rw [Nat.shiftRight_eq_div_pow]
  have hand : n &&& 0xff = n % 256 := by
    have h8 := Nat.and_pow_two_sub_one_eq_mod n 8
    norm_num at h8
    exact h8
  refine ⟨?_, ?_, ?_, ?_, ?_⟩
  · intro h7
    unfold encode_len
    rw [if_neg (by omega), if_neg (by omega), Nat.mod_eq_of_lt (by omega)]
  · intro h7 h8
    unfold encode_len
    rw [if_neg (by omega), if_pos (by omega), Nat.mod_eq_of_lt (by omega)]
  · intro h8
    unfold encode_len
    rw [if_pos (by omega), hand, hdiv, Nat.mod_eq_of_lt (show n / 256 < 256 by omega)]
  · unfold encode_len
    split_ifs <;> simp
  · intro m hm heq
    unfold encode_len at heq
    have hdm : m >>> 8 = m / 256 := hdiv m
    have hdn : n >>> 8 = n / 256 := hdiv n
    split_ifs at heq <;> simp_all <;> omega

/-- Witness for C6 at the concrete length 300. -/
theorem c6_witness : encode_len 300 = [0x82, 300 >>> 8, 300 &&& 0xff] :=
  (c6_encode_len_cases 300 (by norm_num)).2.2.1 (by norm_num)

/-- The length a C pointer/length argument pair contributes: `none` is a
NULL pointer (length 0 in the model), `some l` a buffer holding `l`. -/
def optLen (o : Option (List Nat)) : Nat := (o.getD []).length

/-- The argument validation of `ykhsmauth_put` (ykhsmauth.c:364-370), as a
single conjunction (the C code is the negated disjunction). -/
def put_valid (stateOk : Bool) (mgmkey label key cpw : Option (List Nat)) : Bool :=
  stateOk && mgmkey.isSome && decide (optLen mgmkey = YKHSMAUTH_PW_LEN) &&
  label.isSome && decide (YKHSMAUTH_MIN_LABEL_LEN ≤ optLen label) &&
  decide (optLen label ≤ YKHSMAUTH_MAX_LABEL_LEN) &&
  key.isSome && decide (optLen key ≤ YKHSMAUTH_YUBICO_ECP256_PRIVKEY_LEN) &&
  cpw.isSome && decide (optLen cpw ≤ YKHSMAUTH_PW_LEN)

/-- The argument validation of `ykhsmauth_delete` (ykhsmauth.c:409-413). -/
def delete_valid (stateOk : Bool) (mgmkey label : Option (List Nat)) : Bool :=
  stateOk && mgmkey.isSome && decide (optLen mgmkey = YKHSMAUTH_PW_LEN) &&
  label.isSome && decide (YKHSMAUTH_MIN_LABEL_LEN ≤ optLen label) &&
  decide (optLen label ≤ YKHSMAUTH_MAX_LABEL_LEN)

/-- The argument validation of `ykhsmauth_calculate` (ykhsmauth.c:448-459).
`enc`, `mac` and `rmac` model the output-buffer pointers: `none` is NULL,
`some n` a buffer of capacity `n` (the C `key_s_*_len` parameters).  Note
that `card_pubkey` and `card_crypto` are not NULL-checked by the source. -/
def calc_valid (stateOk : Bool) (label context card_pubkey card_crypto pw : Option (List Nat))
    (enc mac rmac : Option Nat) : Bool :=
  stateOk && label.isSome && decide (YKHSMAUTH_MIN_LABEL_LEN ≤ optLen label) &&
  decide (optLen label ≤ YKHSMAUTH_MAX_LABEL_LEN) &&
  context.isSome && decide (optLen context ≤ 2 * YKHSMAUTH_YUBICO_ECP256_PUBKEY_LEN) &&
  decide (optLen card_pubkey ≤ YKHSMAUTH_YUBICO_ECP256_PUBKEY_LEN) &&
  decide (optLen card_crypto ≤ YKHSMAUTH_SESSION_KEY_LEN) &&
  pw.isSome && decide (optLen pw ≤ YKHSMAUTH_PW_LEN) &&
  enc.isSome && decide (enc.getD 0 = YKHSMAUTH_SESSION_KEY_LEN) &&
  mac.isSome && decide (mac.getD 0 = YKHSMAUTH_SESSION_KEY_LEN) &&
  rmac.isSome && decide (rmac.getD 0 = YKHSMAUTH_SESSION_KEY_LEN)

/-- The argument validation of `ykhsmauth_get_challenge` (ykhsmauth.c:614-620)
and `ykhsmauth_get_pubkey` (ykhsmauth.c:650-655); `bufOk` models the output
pointer being non-NULL and `bufLen` the in/out length pointer (`none` NULL,
`some cap` the caller's capacity). -/
def get_buf_valid (stateOk : Bool) (label : Option (List Nat)) (bufOk : Bool)
    (bufLen : Option Nat) : Bool :=
  stateOk && label.isSome && decide (YKHSMAUTH_MIN_LABEL_LEN ≤ optLen label) &&
  decide (optLen label ≤ YKHSMAUTH_MAX_LABEL_LEN) && bufOk && bufLen.isSome &&
  decide (YKHSMAUTH_YUBICO_ECP256_PUBKEY_LEN ≤ bufLen.getD 0)

/-- The argument validation of `ykhsmauth_put_mgmkey` (ykhsmauth.c:712-715). -/
def put_mgmkey_valid (stateOk : Bool) (mgmkey new_mgmkey : Option (List Nat)) : Bool :=
  stateOk && mgmkey.isSome && decide (optLen mgmkey = YKHSMAUTH_PW_LEN) &&
  new_mgmkey.isSome && decide (optLen new_mgmkey = YKHSMAUTH_PW_LEN)

/-- The value memcpy'd into the encryption-half TLV by `ykhsmauth_put`
(ykhsmauth.c:377): the first `key_len / 2` key bytes. -/
def put_key_enc_value (key : List Nat) : List Nat := key.take (key.length / 2)

/-- The value memcpy'd into the MAC-half TLV by `ykhsmauth_put`
(ykhsmauth.c:378): `key_len / 2` bytes starting at `key + key_len / 2`. -/
def put_key_mac_value (key : List Nat) : List Nat :=
  (key.drop (key.length / 2)).take (key.length / 2)

/-- The first three TLV fields of the `ykhsmauth_put` frame
(ykhsmauth.c:372-374): management key, label, algorithm. -/
def put_frame_base (mgmkey label : List Nat) (algo : Nat) : List Nat :=
  add_tag (add_tag (add_tag [] YKHSMAUTH_TAG_MGMKEY mgmkey 0)
    YKHSMAUTH_TAG_LABEL label 0) YKHSMAUTH_TAG_ALGO [algo] 0

/-- The `ykhsmauth_put` frame up to and including the key field(s)
(ykhsmauth.c:372-381). -/
def put_frame_head (mgmkey label : List Nat) (algo : Nat) (key : List Nat) : List Nat :=
  if algo = YKHSMAUTH_YUBICO_AES128_ALGO then
    add_tag (add_tag (put_frame_base mgmkey label algo)
      YKHSMAUTH_TAG_KEY_ENC (put_key_enc_value key) 0)
      YKHSMAUTH_TAG_KEY_MAC (put_key_mac_value key) 0
  else if algo = YKHSMAUTH_YUBICO_ECP256_ALGO then
    add_tag (put_frame_base mgmkey label algo) YKHSMAUTH_TAG_PRIVKEY key 0
  else put_frame_base mgmkey label algo

/-- The complete `ykhsmauth_put` frame data (ykhsmauth.c:372-384): head,
zero-padded password, touch policy. -/
def put_frame (mgmkey label : List Nat) (algo : Nat) (key cpw : List Nat)
    (touch : Nat) : List Nat :=
  add_tag (add_tag (put_frame_head mgmkey label algo key) YKHSMAUTH_TAG_PW cpw
    (YKHSMAUTH_PW_LEN - cpw.length)) YKHSMAUTH_TAG_TOUCH [touch] 0

/-- The `ykhsmauth_calculate` frame before the password field
(ykhsmauth.c:461-471): label, context, optional card public key (sent when
the pointer is non-NULL and the length nonzero), optional card cryptogram
(sent only when longer than `YKHSMAUTH_CARD_CRYPTO_LEN`). -/
def calc_frame_head (label context card_pubkey card_crypto : List Nat) : List Nat :=
  let d2 := add_tag (add_tag [] YKHSMAUTH_TAG_LABEL label 0)
    YKHSMAUTH_TAG_CONTEXT context 0
  let d3 := if card_pubkey.length ≠ 0 then
    add_tag d2 YKHSMAUTH_TAG_PUBKEY card_pubkey 0 else d2
  if YKHSMAUTH_CARD_CRYPTO_LEN < card_crypto.length then
    add_tag d3 YKHSMAUTH_TAG_RESPONSE card_crypto 0 else d3

/-- The complete `ykhsmauth_calculate` frame data (ykhsmauth.c:461-473):
head plus the zero-padded password field. -/
def calc_frame (label context card_pubkey card_crypto pw : List Nat) : List Nat :=
  add_tag (calc_frame_head label context card_pubkey card_crypto)
    YKHSMAUTH_TAG_PW pw (YKHSMAUTH_PW_LEN - pw.length)

theorem encode_len_small (n : Nat) (h : n ≤ 0x7f) : encode_len n = [n] := by
  unfold encode_len
  rw [if_neg (by omega), if_neg (by omega), Nat.mod_eq_of_lt (by omega)]

theorem add_tag_nopad (d : List Nat) (t : Nat) (v : List Nat) (hv : v.length ≤ 0x7f) :
    add_tag d t v 0 = d ++ [t, v.length] ++ v := by
  unfold add_tag
  rw [Nat.add_zero, Nat.mod_eq_of_lt (by omega), encode_len_small _ hv]
  simp

theorem add_tag_pw_field (d : List Nat) (tag : Nat) (pw : List Nat)
    (hpw : pw.length ≤ YKHSMAUTH_PW_LEN) :
    add_tag d tag pw (YKHSMAUTH_PW_LEN - pw.length) =
      d ++ [tag, YKHSMAUTH_PW_LEN] ++ pw ++
        List.replicate (YKHSMAUTH_PW_LEN - pw.length) 0 := by
  unfold add_tag
  have h16 : pw.length + (YKHSMAUTH_PW_LEN - pw.length) = YKHSMAUTH_PW_LEN := by
    unfold YKHSMAUTH_PW_LEN at *
    omega
  rw [h16, Nat.mod_eq_of_lt (by unfold YKHSMAUTH_PW_LEN; omega),
    encode_len_small _ (by unfold YKHSMAUTH_PW_LEN; omega)]
  simp

/-- C7: for every credential password of length `p ≤ PW_LEN` the encoded
password TLV field, in both the store and the derive-session-keys frame,
has declared length exactly `PW_LEN` and its value is the `p` password
bytes followed by `PW_LEN - p` zero bytes, padded by the encoder. -/
theorem c7_password_padding (label context card_pubkey card_crypto pw : List Nat)
    (mgmkey plabel key cpw : List Nat) (algo touch : Nat)
    (hpw : pw.length ≤ YKHSMAUTH_PW_LEN) (hcpw : cpw.length ≤ YKHSMAUTH_PW_LEN) :
    calc_frame label context card_pubkey card_crypto pw =
      calc_frame_head label context card_pubkey card_crypto ++
        [YKHSMAUTH_TAG_PW, YKHSMAUTH_PW_LEN] ++ pw ++
        List.replicate (YKHSMAUTH_PW_LEN - pw.length) 0 ∧
    (pw ++ List.replicate (YKHSMAUTH_PW_LEN - pw.length) 0).length = YKHSMAUTH_PW_LEN ∧
    put_frame mgmkey plabel algo key cpw touch =
      put_frame_head mgmkey plabel algo key ++
        [YKHSMAUTH_TAG_PW, YKHSMAUTH_PW_LEN] ++ cpw ++
        List.replicate (YKHSMAUTH_PW_LEN - cpw.length) 0 ++
        [YKHSMAUTH_TAG_TOUCH, 1, touch] ∧
    (cpw ++ List.replicate (YKHSMAUTH_PW_LEN - cpw.length) 0).length = YKHSMAUTH_PW_LEN := by
  refine ⟨?_, ?_, ?_, ?_⟩
  · unfold calc_frame
    rw [add_tag_pw_field _ _ _ hpw]
  · simp only [List.length_append, List.length_replicate]
    unfold YKHSMAUTH_PW_LEN at *
    omega
  · unfold put_frame
    rw [add_tag_pw_field _ _ _ hcpw, add_tag_nopad _ _ _ (by simp)]
    simp
  · simp only [List.length_append, List.length_replicate]
    unfold YKHSMAUTH_PW_LEN at *
    omega

/-- Witness for C7 at a concrete 3-byte password. -/
theorem c7_witness :
    calc_frame [97] [] [] [] [1, 2, 3] =
      calc_frame_head [97] [] [] [] ++ [YKHSMAUTH_TAG_PW, YKHSMAUTH_PW_LEN] ++
        [1, 2, 3] ++ List.replicate (YKHSMAUTH_PW_LEN - [1, 2, 3].length) 0 :=
  (c7_password_padding [97] [] [] [] [1, 2, 3] [] [] [] [] 0 0
    (by decide) (by decide)).1

set_option maxRecDepth 8000 in
/-- C3 is violated by the code: `ykhsmauth_calculate`'s validation accepts a
maximal label (64), context (130), card public key (65), card cryptogram
(16) and password (16), whose encoded TLV fields total 302 bytes, which
exceeds the 255-byte fixed data buffer of the command frame. -/
theorem c3_calculate_frame_overflow :
    calc_valid true (some (List.replicate 64 97)) (some (List.replicate 130 1))
      (some (List.replicate 65 2)) (some (List.replicate 16 3))
      (some (List.replicate 16 4)) (some 16) (some 16) (some 16) = true ∧
    (calc_frame (List.replicate 64 97) (List.replicate 130 1) (List.replicate 65 2)
      (List.replicate 16 3) (List.replicate 16 4)).length = 302 ∧
    APDU_DATA_SIZE < 302 := by
  refine ⟨by decide, by decide, by decide⟩

/-- C9 fails for odd key lengths, which the validation accepts: with a
1-byte key both halves are empty and their concatenation is not the key. -/
theorem c9_odd_key_counterexample :
    put_valid true (some (List.replicate 16 0)) (some [97, 98, 99]) (some [5])
      (some []) = true ∧
    put_key_enc_value [5] ++ put_key_mac_value [5] ≠ [5] := by
  exact ⟨by decide, by decide⟩

/-- C9 as amended: for every AES-128 store with key material of even length
`k` (accepted by validation, `k ≤ 32`), the encoder writes exactly two key
TLV fields — the encryption half then the MAC half — of equal declared and
actual length `k / 2`, and the concatenation of the two field values is the
full key. -/
theorem c9_even_key_split (mgmkey label key : List Nat)
    (hk : key.length ≤ YKHSMAUTH_YUBICO_ECP256_PRIVKEY_LEN)
    (heven : key.length % 2 = 0) :
    put_frame_head mgmkey label YKHSMAUTH_YUBICO_AES128_ALGO key =
      put_frame_base mgmkey label YKHSMAUTH_YUBICO_AES128_ALGO ++
        [YKHSMAUTH_TAG_KEY_ENC, key.length / 2] ++ put_key_enc_value key ++
        [YKHSMAUTH_TAG_KEY_MAC, key.length / 2] ++ put_key_mac_value key ∧
    (put_key_enc_value key).length = key.length / 2 ∧
    (put_key_mac_value key).length = key.length / 2 ∧
    put_key_enc_value key ++ put_key_mac_value key = key := by
  unfold YKHSMAUTH_YUBICO_ECP256_PRIVKEY_LEN at hk
  have henc : (put_key_enc_value key).length = key.length / 2 := by
    unfold put_key_enc_value
    rw [List.length_take]
    omega
  have hmacval : put_key_mac_value key = key.drop (key.length / 2) := by
    unfold put_key_mac_value
    apply List.take_of_length_le
    rw [List.length_drop]
    omega
  have hmac : (put_key_mac_value key).length = key.length / 2 := by
    rw [hmacval, List.length_drop]
    omega
  refine ⟨?_, henc, hmac, ?_⟩
  · unfold put_frame_head
    rw [if_pos rfl, add_tag_nopad _ _ _ (by omega), add_tag_nopad _ _ _ (by omega),
      henc, hmac]
  · rw [hmacval]
    unfold put_key_enc_value
    exact List.take_append_drop _ key

/-- Witness for C9 (amended) at a concrete 32-byte key. -/
theorem c9_witness :
    put_key_enc_value (List.replicate 32 9) ++ put_key_mac_value (List.replicate 32 9) =
      List.replicate 32 9 :=
  (c9_even_key_split [] [97] (List.replicate 32 9) (by decide) (by decide)).2.2.2

theorem send_data_ok (p : List Nat) (hi lo : Nat) :
    send_data (.ok (p ++ [hi, lo])) = (SUCCESS, p, (hi <<< 8) ||| lo) := by
  unfold send_data
  have hl : (p ++ [hi, lo]).length = p.length + 2 := by simp
  simp only [hl]
  rw [if_pos (by omega)]
  have h2 : p.length + 2 - 2 = p.length := by omega
  have h1 : p.length + 2 - 1 = p.length + 1 := by omega
  rw [h2, h1, List.take_left' rfl]
  rw [List.getD_eq_getElem?_getD, List.getElem?_append_right (le_refl _)]
  rw [List.getD_eq_getElem?_getD, List.getElem?_append_right (by omega)]
  have h3 : p.length + 1 - p.length = 1 := by omega
  rw [h3]
  simp

/-- Output of `ykhsmauth_calculate`: result code, the contents written into
the three caller session-key buffers (`none` when untouched), the pointee
of the retries out-parameter after the call, and whether the transport
exchange was invoked. -/
structure CalcOut where
  rc : ykhsmauth_rc
  key_s_enc : Option (List Nat)
  key_s_mac : Option (List Nat)
  key_s_rmac : Option (List Nat)
  retriesOut : Option Nat
  sent : Bool
deriving DecidableEq

/-- `ykhsmauth_calculate` (ykhsmauth.c:432-505): validate, exchange, check
the status word, then require the payload to be exactly
`3 * YKHSMAUTH_SESSION_KEY_LEN` bytes and copy its three 16-byte slices
into the enc, mac and response-mac caller buffers. -/
def ykhsmauth_calculate (stateOk : Bool)
    (label context card_pubkey card_crypto pw : Option (List Nat))
    (enc mac rmac : Option Nat) (retries : Option Nat)
    (recv : Except Unit (List Nat)) : CalcOut :=
  if calc_valid stateOk label context card_pubkey card_crypto pw enc mac rmac = false then
    ⟨INVALID_PARAMS, none, none, none, retries, false⟩
  else
    let t := send_data recv
    if t.1 ≠ SUCCESS then ⟨t.1, none, none, none, retries, true⟩
    else if t.2.2 ≠ SW_SUCCESS then
      ⟨(translate_error t.2.2 retries).1, none, none, none,
        (translate_error t.2.2 retries).2, true⟩
    else if t.2.1.length ≠ 3 * YKHSMAUTH_SESSION_KEY_LEN then
      ⟨GENERIC_ERROR, none, none, none, retries, true⟩
    else
      ⟨SUCCESS, some (t.2.1.take YKHSMAUTH_SESSION_KEY_LEN),
        some ((t.2.1.drop YKHSMAUTH_SESSION_KEY_LEN).take YKHSMAUTH_SESSION_KEY_LEN),
        some ((t.2.1.drop (2 * YKHSMAUTH_SESSION_KEY_LEN)).take YKHSMAUTH_SESSION_KEY_LEN),
        retries, true⟩

/-- Result code, retries pointee after the call, and whether the transport
was invoked — the observable outcome of the simple operations. -/
structure SimpleOut where
  rc : ykhsmauth_rc
  retriesOut : Option Nat
  sent : Bool
deriving DecidableEq

/-- `ykhsmauth_put` (ykhsmauth.c:354-398). -/
def ykhsmauth_put (stateOk : Bool) (mgmkey label : Option (List Nat)) (algo : Nat)
    (key cpw : Option (List Nat)) (touch : Nat) (retries : Option Nat)
    (recv : Except Unit (List Nat)) : SimpleOut :=
  if put_valid stateOk mgmkey label key cpw = false then ⟨INVALID_PARAMS, retries, false⟩
  else
    let t := send_data recv
    if t.1 ≠ SUCCESS then ⟨t.1, retries, true⟩
    else if t.2.2 ≠ SW_SUCCESS then
      ⟨(translate_error t.2.2 retries).1, (translate_error t.2.2 retries).2, true⟩
    else ⟨SUCCESS, retries, true⟩

/-- `ykhsmauth_delete` (ykhsmauth.c:400-430). -/
def ykhsmauth_delete (stateOk : Bool) (mgmkey label : Option (List Nat))
    (retries : Option Nat) (recv : Except Unit (List Nat)) : SimpleOut :=
  if delete_valid stateOk mgmkey label = false then ⟨INVALID_PARAMS, retries, false⟩
  else
    let t := send_data recv
    if t.1 ≠ SUCCESS then ⟨t.1, retries, true⟩
    else if t.2.2 ≠ SW_SUCCESS then
      ⟨(translate_error t.2.2 retries).1, (translate_error t.2.2 retries).2, true⟩
    else ⟨SUCCESS, retries, true⟩

/-- `ykhsmauth_reset` (ykhsmauth.c:507-530).  Note that the result of
`send_data` is only returned when the status word is `SW_SUCCESS`; a failed
transmit leaves `sw = 0` and therefore falls into `translate_error`. -/
def ykhsmauth_reset (stateOk : Bool) (recv : Except Unit (List Nat)) :
    ykhsmauth_rc × Bool :=
  if stateOk = false then (INVALID_PARAMS, false)
  else
    let t := send_data recv
    if t.2.2 ≠ SW_SUCCESS then ((translate_error t.2.2 none).1, true)
    else (t.1, true)

/-- Outcome of `ykhsmauth_get_challenge` / `ykhsmauth_get_pubkey`: the bytes
memcpy'd into the caller's buffer and the length written back through the
in/out length pointer. -/
structure BufOut where
  rc : ykhsmauth_rc
  copied : Option (List Nat)
  lenOut : Option Nat
  sent : Bool
deriving DecidableEq

/-- `ykhsmauth_get_challenge` (ykhsmauth.c:604-639): on success the whole
payload is copied into the caller's buffer and its length written back. -/
def ykhsmauth_get_challenge (stateOk : Bool) (label : Option (List Nat))
    (challengeOk : Bool) (challenge_len : Option Nat)
    (recv : Except Unit (List Nat)) : BufOut :=
  if get_buf_valid stateOk label challengeOk challenge_len = false then
    ⟨INVALID_PARAMS, none, none, false⟩
  else
    let t := send_data recv
    if t.1 ≠ SUCCESS then ⟨t.1, none, none, true⟩
    else if t.2.2 ≠ SW_SUCCESS then ⟨(translate_error t.2.2 none).1, none, none, true⟩
    else ⟨SUCCESS, some t.2.1, some t.2.1.length, true⟩

/-- `ykhsmauth_get_pubkey` (ykhsmauth.c:641-674): identical response
handling to `ykhsmauth_get_challenge`. -/
def ykhsmauth_get_pubkey (stateOk : Bool) (label : Option (List Nat))
    (pubkeyOk : Bool) (pubkey_len : Option Nat)
    (recv : Except Unit (List Nat)) : BufOut :=
  if get_buf_valid stateOk label pubkeyOk pubkey_len = false then
    ⟨INVALID_PARAMS, none, none, false⟩
  else
    let t := send_data recv
    if t.1 ≠ SUCCESS then ⟨t.1, none, none, true⟩
    else if t.2.2 ≠ SW_SUCCESS then ⟨(translate_error t.2.2 none).1, none, none, true⟩
    else ⟨SUCCESS, some t.2.1, some t.2.1.length, true⟩

/-- `ykhsmauth_get_mgmkey_retries` (ykhsmauth.c:676-702): on success the
first payload byte is written through the retries pointer. -/
def ykhsmauth_get_mgmkey_retries (stateOk retriesOk : Bool)
    (recv : Except Unit (List Nat)) : SimpleOut :=
  if (stateOk && retriesOk) = false then ⟨INVALID_PARAMS, none, false⟩
  else
    let t := send_data recv
    if t.1 ≠ SUCCESS then ⟨t.1, none, true⟩
    else if t.2.2 ≠ SW_SUCCESS then ⟨(translate_error t.2.2 none).1, none, true⟩
    else ⟨SUCCESS, some (t.2.1.getD 0 0), true⟩

/-- `ykhsmauth_put_mgmkey` (ykhsmauth.c:704-732). -/
def ykhsmauth_put_mgmkey (stateOk : Bool) (mgmkey new_mgmkey : Option (List Nat))
    (retries : Option Nat) (recv : Except Unit (List Nat)) : SimpleOut :=
  if put_mgmkey_valid stateOk mgmkey new_mgmkey = false then
    ⟨INVALID_PARAMS, retries, false⟩
  else
    let t := send_data recv
    if t.1 ≠ SUCCESS then ⟨t.1, retries, true⟩
    else if t.2.2 ≠ SW_SUCCESS then
      ⟨(translate_error t.2.2 retries).1, (translate_error t.2.2 retries).2, true⟩
    else ⟨SUCCESS, retries, true⟩

/-- One decoded list entry as stored into `ykhsmauth_list_entry`: algorithm
byte, touch byte, the zero-filled 65-byte label array, counter byte. -/
structure ListEntryRec where
  algo : Nat
  touch : Nat
  label : List Nat
  ctr : Nat
deriving DecidableEq

/-- Result of the record-scanning loop of `ykhsmauth_list_keys`: result
code, the entries written into the caller's slots (in slot order), and the
value written through `*list_items` (`none` when the loop returned before
reaching that store). -/
structure ListScan where
  rc : ykhsmauth_rc
  entries : List ListEntryRec
  countOut : Option Nat
deriving DecidableEq

/-- The scanning loop of `ykhsmauth_list_keys` (ykhsmauth.c:557-601),
walking `data` with cursor `i`: two header bytes (tag, declared length) per
record, then algorithm, touch, `len - 3` label bytes and the counter; with
a NULL output array (`haveList = false`) records are only counted and
skipped.  `*list_items` is written before the final trailing-bytes check,
hence `countOut = some elem` in both final branches. -/
def list_walk (haveList : Bool) (cap : Nat) (data : List Nat) (i elem : Nat)
    (acc : List ListEntryRec) : ListScan :=
  if h : i + 1 < data.length then
    if data.getD i 0 = YKHSMAUTH_TAG_LABEL_LIST then
      let len := data.getD (i + 1) 0
      if haveList then
        if cap ≤ elem then ⟨MEMORY_ERROR, acc, none⟩
        else if data.length < i + 2 + len ∨ len < 3 ∨
            LIST_ENTRY_LABEL_SIZE < len - 3 then
          ⟨GENERIC_ERROR, acc, none⟩
        else
          list_walk haveList cap data (i + 2 + len) (elem + 1)
            (acc ++ [⟨data.getD (i + 2) 0, data.getD (i + 3) 0,
              (data.drop (i + 4)).take (len - 3) ++
                List.replicate (LIST_ENTRY_LABEL_SIZE - (len - 3)) 0,
              data.getD (i + 1 + len) 0⟩])
      else list_walk haveList cap data (i + 2 + len) (elem + 1) acc
    else ⟨GENERIC_ERROR, acc, none⟩
  else ⟨if i = data.length then SUCCESS else GENERIC_ERROR, acc, some elem⟩
termination_by data.length - i
decreasing_by
  all_goals omega

/-- Observable outcome of `ykhsmauth_list_keys`. -/
structure ListOut where
  rc : ykhsmauth_rc
  entries : List ListEntryRec
  countOut : Option Nat
  sent : Bool
deriving DecidableEq

/-- `ykhsmauth_list_keys` (ykhsmauth.c:532-602).  `haveList` models the
output array pointer being non-NULL, `cap` the caller's `*list_items`
capacity, `itemsOk` the `list_items` pointer being non-NULL. -/
def ykhsmauth_list_keys (stateOk haveList : Bool) (cap : Nat) (itemsOk : Bool)
    (recv : Except Unit (List Nat)) : ListOut :=
  if (stateOk && itemsOk) = false then ⟨INVALID_PARAMS, [], none, false⟩
  else
    let t := send_data recv
    if t.1 ≠ SUCCESS then ⟨t.1, [], none, true⟩
    else if t.2.2 ≠ SW_SUCCESS then ⟨(translate_error t.2.2 none).1, [], none, true⟩
    else
      let s := list_walk haveList cap t.2.1 0 0 []
      ⟨s.rc, s.entries, s.countOut, true⟩

/-- C1: for every successful exchange in `ykhsmauth_calculate` (validation
passed, transport succeeded, status word `SW_SUCCESS`), a payload of
exactly `3 * SESSION_KEY_LEN` bytes yields `SUCCESS` with the three caller
buffers filled with the first, second and third `SESSION_KEY_LEN`-byte
slices in that order, and any other payload length yields
`GENERIC_ERROR`, never `SUCCESS`. -/
theorem c1_calculate_session_keys (stateOk : Bool)
    (label context card_pubkey card_crypto pw : Option (List Nat))
    (enc mac rmac : Option Nat) (retries : Option Nat) (e m r p : List Nat)
    (hv : calc_valid stateOk label context card_pubkey card_crypto pw enc mac rmac = true)
    (he : e.length = YKHSMAUTH_SESSION_KEY_LEN)
    (hm : m.length = YKHSMAUTH_SESSION_KEY_LEN)
    (hr : r.length = YKHSMAUTH_SESSION_KEY_LEN)
    (hp : p.length ≠ 3 * YKHSMAUTH_SESSION_KEY_LEN) :
    ykhsmauth_calculate stateOk label context card_pubkey card_crypto pw enc mac rmac
        retries (.ok ((e ++ (m ++ r)) ++ [0x90, 0x00])) =
      ⟨SUCCESS, some e, some m, some r, retries, true⟩ ∧
    ykhsmauth_calculate stateOk label context card_pubkey card_crypto pw enc mac rmac
        retries (.ok (p ++ [0x90, 0x00])) =
      ⟨GENERIC_ERROR, none, none, none, retries, true⟩ ∧
    GENERIC_ERROR ≠ SUCCESS := by
  have hsw : (0x90 <<< 8) ||| 0x00 = SW_SUCCESS := by decide
  refine ⟨?_, ?_, by decide⟩
  · unfold ykhsmauth_calculate
    rw [hv]
    simp only [Bool.true_eq_false, if_false, send_data_ok, hsw]
    have hlen : (e ++ (m ++ r)).length = 3 * YKHSMAUTH_SESSION_KEY_LEN := by
      simp only [List.length_append, he, hm, hr]
      omega
    simp only [hlen]
    rw [if_neg (by simp), if_neg (by simp), if_neg (by simp)]
    have h1 : (e ++ (m ++ r)).take YKHSMAUTH_SESSION_KEY_LEN = e := List.take_left' he
    have h2 : (e ++ (m ++ r)).drop YKHSMAUTH_SESSION_KEY_LEN = m ++ r := List.drop_left' he
    have h3 : (e ++ (m ++ r)).drop (2 * YKHSMAUTH_SESSION_KEY_LEN) = r := by
      rw [← List.append_assoc]
      refine List.drop_left' ?_
      simp only [List.length_append, he, hm]
      omega
    rw [h1, h2, h3, List.take_left' hm, List.take_of_length_le (le_of_eq hr)]
  · unfold ykhsmauth_calculate
    rw [hv]
    simp only [Bool.true_eq_false, if_false, send_data_ok, hsw]
    rw [if_neg (by simp), if_neg (by simp), if_pos hp]

/-- Witness for C1: a concrete valid argument set, a 48-byte payload split
into three 16-byte slices, and a 1-byte payload rejected as GenericError. -/
theorem c1_witness :
    ykhsmauth_calculate true (some [97]) (some []) (some []) (some []) (some [])
        (some 16) (some 16) (some 16) none
        (.ok ((List.replicate 16 1 ++ (List.replicate 16 2 ++ List.replicate 16 3)) ++
          [0x90, 0x00])) =
      ⟨SUCCESS, some (List.replicate 16 1), some (List.replicate 16 2),
        some (List.replicate 16 3), none, true⟩ ∧
    ykhsmauth_calculate true (some [97]) (some []) (some []) (some []) (some [])
        (some 16) (some 16) (some 16) none (.ok ([7] ++ [0x90, 0x00])) =
      ⟨GENERIC_ERROR, none, none, none, none, true⟩ ∧
    GENERIC_ERROR ≠ SUCCESS :=
  c1_calculate_session_keys true (some [97]) (some []) (some []) (some []) (some [])
    (some 16) (some 16) (some 16) none (List.replicate 16 1) (List.replicate 16 2)
    (List.replicate 16 3) [7] (by decide) (by decide) (by decide) (by decide) (by decide)

/-- C4: whenever an operation's argument validation fails — in particular
for every label shorter than `MIN_LABEL_LEN` or longer than
`MAX_LABEL_LEN`, and for every other violated precondition (NULL pointers,
admin-key length not exactly `PW_LEN`, password longer than `PW_LEN`) —
the five label-taking operations return `INVALID_PARAMS` and never invoke
the transport exchange, for every possible transport behaviour. -/
theorem c4_invalid_params_never_sent :
    (∀ stateOk mgmkey label algo key cpw touch retries recv,
      put_valid stateOk mgmkey label key cpw = false →
        ykhsmauth_put stateOk mgmkey label algo key cpw touch retries recv =
          ⟨INVALID_PARAMS, retries, false⟩) ∧
    (∀ stateOk mgmkey label retries recv,
      delete_valid stateOk mgmkey label = false →
        ykhsmauth_delete stateOk mgmkey label retries recv =
          ⟨INVALID_PARAMS, retries, false⟩) ∧
    (∀ stateOk label context card_pubkey card_crypto pw enc mac rmac retries recv,
      calc_valid stateOk label context card_pubkey card_crypto pw enc mac rmac = false →
        ykhsmauth_calculate stateOk label context card_pubkey card_crypto pw enc mac
          rmac retries recv = ⟨INVALID_PARAMS, none, none, none, retries, false⟩) ∧
    (∀ stateOk label challengeOk challenge_len recv,
      get_buf_valid stateOk label challengeOk challenge_len = false →
        ykhsmauth_get_challenge stateOk label challengeOk challenge_len recv =
          ⟨INVALID_PARAMS, none, none, false⟩) ∧
    (∀ stateOk label pubkeyOk pubkey_len recv,
      get_buf_valid stateOk label pubkeyOk pubkey_len = false →
        ykhsmauth_get_pubkey stateOk label pubkeyOk pubkey_len recv =
          ⟨INVALID_PARAMS, none, none, false⟩) ∧
    (∀ (label : List Nat) stateOk mgmkey key cpw context card_pubkey card_crypto pw
        enc mac rmac bufOk bufLen,
      (label.length < YKHSMAUTH_MIN_LABEL_LEN ∨ YKHSMAUTH_MAX_LABEL_LEN < label.length) →
        put_valid stateOk mgmkey (some label) key cpw = false ∧
        delete_valid stateOk mgmkey (some label) = false ∧
        calc_valid stateOk (some label) context card_pubkey card_crypto pw enc mac
          rmac = false ∧
        get_buf_valid stateOk (some label) bufOk bufLen = false) := by
  refine ⟨?_, ?_, ?_, ?_, ?_, ?_⟩
  · intro stateOk mgmkey label algo key cpw touch retries recv h
    unfold ykhsmauth_put
    rw [h, if_pos rfl]
  · intro stateOk mgmkey label retries recv h
    unfold ykhsmauth_delete
    rw [h, if_pos rfl]
  · intro stateOk label context card_pubkey card_crypto pw enc mac rmac retries recv h
    unfold ykhsmauth_calculate
    rw [h, if_pos rfl]
  · intro stateOk label challengeOk challenge_len recv h
    unfold ykhsmauth_get_challenge
    rw [h, if_pos rfl]
  · intro stateOk label pubkeyOk pubkey_len recv h
    unfold ykhsmauth_get_pubkey
    rw [h, if_pos rfl]
  · intro label stateOk mgmkey key cpw context card_pubkey card_crypto pw enc mac
      rmac bufOk bufLen hbad
    have hlab : optLen (some label) = label.length := by simp [optLen]
    refine ⟨?_, ?_, ?_, ?_⟩ <;>
      · simp only [put_valid, delete_valid, calc_valid, get_buf_valid, hlab]
        rcases hbad with hb | hb
        · have : decide (YKHSMAUTH_MIN_LABEL_LEN ≤ label.length) = false := by
            simp
            omega
          simp [this]
        · have : decide (label.length ≤ YKHSMAUTH_MAX_LABEL_LEN) = false := by
            simp
            omega
          simp [this]

/-- C8 is violated by `ykhsmauth_reset`: when the transport exchange fails
before a status word is obtained (`sw` stays 0), reset returns the
status-translator result for 0 — `GENERIC_ERROR` — instead of the
transport-error result `PCSC_ERROR`. -/
theorem c8_reset_counterexample :
    ykhsmauth_reset true (.error ()) = (GENERIC_ERROR, true) ∧
    GENERIC_ERROR ≠ PCSC_ERROR := by
  exact ⟨by decide, by decide⟩

/-- C8 as amended: for every operation other than factory reset (store,
delete, derive session keys, list, get challenge, get public key, get
management-key retries, put management key), a transport failure before a
status word is obtained yields the transport-error result `PCSC_ERROR`;
factory reset instead routes the `sw = 0` left by the failed exchange
through the status translator and returns `GENERIC_ERROR`. -/
theorem c8_transport_error_propagation :
    (∀ stateOk mgmkey label algo key cpw touch retries,
      put_valid stateOk mgmkey label key cpw = true →
        ykhsmauth_put stateOk mgmkey label algo key cpw touch retries (.error ()) =
          ⟨PCSC_ERROR, retries, true⟩) ∧
    (∀ stateOk mgmkey label retries,
      delete_valid stateOk mgmkey label = true →
        ykhsmauth_delete stateOk mgmkey label retries (.error ()) =
          ⟨PCSC_ERROR, retries, true⟩) ∧
    (∀ stateOk label context card_pubkey card_crypto pw enc mac rmac retries,
      calc_valid stateOk label context card_pubkey card_crypto pw enc mac rmac = true →
        ykhsmauth_calculate stateOk label context card_pubkey card_crypto pw enc mac
          rmac retries (.error ()) = ⟨PCSC_ERROR, none, none, none, retries, true⟩) ∧
    (∀ stateOk haveList cap itemsOk,
      (stateOk && itemsOk) = true →
        ykhsmauth_list_keys stateOk haveList cap itemsOk (.error ()) =
          ⟨PCSC_ERROR, [], none, true⟩) ∧
    (∀ stateOk label challengeOk challenge_len,
      get_buf_valid stateOk label challengeOk challenge_len = true →
        ykhsmauth_get_challenge stateOk label challengeOk challenge_len (.error ()) =
          ⟨PCSC_ERROR, none, none, true⟩) ∧
    (∀ stateOk label pubkeyOk pubkey_len,
      get_buf_valid stateOk label pubkeyOk pubkey_len = true →
        ykhsmauth_get_pubkey stateOk label pubkeyOk pubkey_len (.error ()) =
          ⟨PCSC_ERROR, none, none, true⟩) ∧
    (∀ stateOk retriesOk,
      (stateOk && retriesOk) = true →
        ykhsmauth_get_mgmkey_retries stateOk retriesOk (.error ()) =
          ⟨PCSC_ERROR, none, true⟩) ∧
    (∀ stateOk mgmkey new_mgmkey retries,
      put_mgmkey_valid stateOk mgmkey new_mgmkey = true →
        ykhsmauth_put_mgmkey stateOk mgmkey new_mgmkey retries (.error ()) =
          ⟨PCSC_ERROR, retries, true⟩) ∧
    (∀ stateOk, stateOk = true →
      ykhsmauth_reset stateOk (.error ()) = (GENERIC_ERROR, true)) := by
  refine ⟨?_, ?_, ?_, ?_, ?_, ?_, ?_, ?_, ?_⟩
  · intro stateOk mgmkey label algo key cpw touch retries h
    unfold ykhsmauth_put
    rw [h]
    simp [send_data]
  · intro stateOk mgmkey label retries h
    unfold ykhsmauth_delete
    rw [h]
    simp [send_data]
  · intro stateOk label context card_pubkey card_crypto pw enc mac rmac retries h
    unfold ykhsmauth_calculate
    rw [h]
    simp [send_data]
  · intro stateOk haveList cap itemsOk h
    unfold ykhsmauth_list_keys
    rw [h]
    simp [send_data]
  · intro stateOk label challengeOk challenge_len h
    unfold ykhsmauth_get_challenge
    rw [h]
    simp [send_data]
  · intro stateOk label pubkeyOk pubkey_len h
    unfold ykhsmauth_get_pubkey
    rw [h]
    simp [send_data]
  · intro stateOk retriesOk h
    unfold ykhsmauth_get_mgmkey_retries
    rw [h]
    simp [send_data]
  · intro stateOk mgmkey new_mgmkey retries h
    unfold ykhsmauth_put_mgmkey
    rw [h]
    simp [send_data]
  · intro stateOk h
    subst h
    decide

/-- Witness for C8 (amended): each conjunct applied at concrete valid
arguments with a failing transport. -/
theorem c8_witness :
    ykhsmauth_put true (some (List.replicate 16 0)) (some [97]) 38 (some [])
        (some []) 0 none (.error ()) = ⟨PCSC_ERROR, none, true⟩ ∧
    ykhsmauth_delete true (some (List.replicate 16 0)) (some [97]) none
        (.error ()) = ⟨PCSC_ERROR, none, true⟩ ∧
    ykhsmauth_calculate true (some [97]) (some []) (some []) (some []) (some [])
        (some 16) (some 16) (some 16) none (.error ()) =
      ⟨PCSC_ERROR, none, none, none, none, true⟩ ∧
    ykhsmauth_list_keys true true 4 true (.error ()) = ⟨PCSC_ERROR, [], none, true⟩ ∧
    ykhsmauth_get_challenge true (some [97]) true (some 65) (.error ()) =
      ⟨PCSC_ERROR, none, none, true⟩ ∧
    ykhsmauth_get_pubkey true (some [97]) true (some 65) (.error ()) =
      ⟨PCSC_ERROR, none, none, true⟩ ∧
    ykhsmauth_get_mgmkey_retries true true (.error ()) = ⟨PCSC_ERROR, none, true⟩ ∧
    ykhsmauth_put_mgmkey true (some (List.replicate 16 0))
        (some (List.replicate 16 1)) none (.error ()) = ⟨PCSC_ERROR, none, true⟩ ∧
    ykhsmauth_reset true (.error ()) = (GENERIC_ERROR, true) :=
  ⟨c8_transport_error_propagation.1 true (some (List.replicate 16 0)) (some [97]) 38
      (some []) (some []) 0 none (by decide),
   c8_transport_error_propagation.2.1 true (some (List.replicate 16 0)) (some [97])
      none (by decide),
   c8_transport_error_propagation.2.2.1 true (some [97]) (some []) (some []) (some [])
      (some []) (some 16) (some 16) (some 16) none (by decide),
   c8_transport_error_propagation.2.2.2.1 true true 4 true (by decide),
   c8_transport_error_propagation.2.2.2.2.1 true (some [97]) true (some 65) (by decide),
   c8_transport_error_propagation.2.2.2.2.2.1 true (some [97]) true (some 65) (by decide),
   c8_transport_error_propagation.2.2.2.2.2.2.1 true true (by decide),
   c8_transport_error_propagation.2.2.2.2.2.2.2.1 true (some (List.replicate 16 0))
      (some (List.replicate 16 1)) none (by decide),
   c8_transport_error_propagation.2.2.2.2.2.2.2.2 true rfl⟩

set_option maxRecDepth 8000 in
/-- C10 is violated by the code: with the minimal caller capacity 65
accepted by validation, a successful 100-byte payload is copied in full —
`ykhsmauth_get_challenge` and `ykhsmauth_get_pubkey` copy 100 bytes into
the 65-byte caller buffer and write back 100. -/
theorem c10_get_buffer_copy_overflow :
    get_buf_valid true (some [97]) true (some 65) = true ∧
    ykhsmauth_get_challenge true (some [97]) true (some 65)
        (.ok (List.replicate 100 7 ++ [0x90, 0x00])) =
      ⟨SUCCESS, some (List.replicate 100 7), some 100, true⟩ ∧
    ykhsmauth_get_pubkey true (some [97]) true (some 65)
        (.ok (List.replicate 100 7 ++ [0x90, 0x00])) =
      ⟨SUCCESS, some (List.replicate 100 7), some 100, true⟩ ∧
    65 < 100 := by
  refine ⟨by decide, ?_, ?_, by decide⟩
  · unfold ykhsmauth_get_challenge
    rw [if_neg (by decide), send_data_ok]
    decide
  · unfold ykhsmauth_get_pubkey
    rw [if_neg (by decide), send_data_ok]
    decide

/-- The list-response decoding as the amended C5 claim describes it, record
by record on the remaining payload: a record whose tag is not the
list-entry tag is a GenericError; with an output array supplied, exhausted
capacity is a MemoryError (checked before the record is validated), and a
declared length exceeding the remaining bytes, below 3, or with a label
portion above the fixed label capacity is a GenericError; otherwise the
record's algorithm, touch, label and counter are taken in that order.
Without an output array records are only counted; a skip running past the
end, or a leftover single byte, is a GenericError.  This definition follows
the spec's words and is compared against `list_walk`, which follows the
source. -/
def spec_scan (haveList : Bool) (cap elem : Nat) (rem : List Nat)
    (acc : List ListEntryRec) : ListScan :=
  match rem with
  | [] => ⟨SUCCESS, acc, some elem⟩
  | [_] => ⟨GENERIC_ERROR, acc, some elem⟩
  | t :: len :: rest =>
    if t = YKHSMAUTH_TAG_LABEL_LIST then
      if haveList then
        if cap ≤ elem then ⟨MEMORY_ERROR, acc, none⟩
        else if rest.length < len ∨ len < 3 ∨ LIST_ENTRY_LABEL_SIZE < len - 3 then
          ⟨GENERIC_ERROR, acc, none⟩
        else
          spec_scan haveList cap (elem + 1) (rest.drop len)
            (acc ++ [⟨rest.getD 0 0, rest.getD 1 0,
              (rest.drop 2).take (len - 3) ++
                List.replicate (LIST_ENTRY_LABEL_SIZE - (len - 3)) 0,
              rest.getD (len - 1) 0⟩])
      else
        if rest.length < len then ⟨GENERIC_ERROR, acc, some (elem + 1)⟩
        else spec_scan haveList cap (elem + 1) (rest.drop len) acc
    else ⟨GENERIC_ERROR, acc, none⟩
termination_by rem.length
decreasing_by
  all_goals simp [List.length_drop]
  all_goals omega

/-- `ykhsmauth_list_keys` with its scanning loop replaced by the spec-side
`spec_scan`; compared against the source model in the C5 theorem. -/
def spec_list_keys (stateOk haveList : Bool) (cap : Nat) (itemsOk : Bool)
    (recv : Except Unit (List Nat)) : ListOut :=
  if (stateOk && itemsOk) = false then ⟨INVALID_PARAMS, [], none, false⟩
  else
    let t := send_data recv
    if t.1 ≠ SUCCESS then ⟨t.1, [], none, true⟩
    else if t.2.2 ≠ SW_SUCCESS then ⟨(translate_error t.2.2 none).1, [], none, true⟩
    else
      let s := spec_scan haveList cap 0 t.2.1 []
      ⟨s.rc, s.entries, s.countOut, true⟩

theorem getD_drop (l : List Nat) (k j : Nat) (d : Nat) :
    (l.drop k).getD j d = l.getD (k + j) d := by
  rw [List.getD_eq_getElem?_getD, List.getD_eq_getElem?_getD, List.getElem?_drop]

theorem list_walk_past (haveList : Bool) (cap : Nat) (data : List Nat) (i elem : Nat)
    (acc : List ListEntryRec) (h : data.length < i) :
    list_walk haveList cap data i elem acc = ⟨GENERIC_ERROR, acc, some elem⟩ := by
  rw [list_walk, dif_neg (by omega), if_neg (by omega)]

theorem list_walk_eq_spec_scan (haveList : Bool) (cap : Nat) (data : List Nat) :
    ∀ fuel i elem acc, data.length - i ≤ fuel → i ≤ data.length →
      list_walk haveList cap data i elem acc =
        spec_scan haveList cap elem (data.drop i) acc := by
  intro fuel
  induction fuel with
  | zero =>
    intro i elem acc hf hi
    have hieq : i = data.length := by omega
    subst hieq
    rw [List.drop_length, list_walk, dif_neg (by omega), if_pos rfl, spec_scan]
  | succ n ih =>
    intro i elem acc hf hi
    by_cases h1 : i + 1 < data.length
    · have hi0 : i < data.length := by omega
      have hdrop : data.drop i = data[i] :: data[i + 1] :: data.drop (i + 2) := by
        rw [List.drop_eq_getElem_cons hi0]
        congr 1
        rw [List.drop_eq_getElem_cons h1]
      have hgi : data.getD i 0 = data[i] := List.getD_eq_getElem data 0 hi0
      have hgi1 : data.getD (i + 1) 0 = data[i + 1] := List.getD_eq_getElem data 0 h1
      rw [hdrop, list_walk, dif_pos h1, spec_scan]
      simp only [hgi, hgi1, List.length_drop]
      by_cases htag : data[i] = YKHSMAUTH_TAG_LABEL_LIST
      · rw [if_pos htag, if_pos htag]
        by_cases hHL : haveList = true
        · subst hHL
          rw [if_pos rfl, if_pos rfl]
          by_cases hcap : cap ≤ elem
          · rw [if_pos hcap, if_pos hcap]
          · rw [if_neg hcap, if_neg hcap]
            by_cases hbad : data.length < i + 2 + data[i + 1] ∨ data[i + 1] < 3 ∨
                LIST_ENTRY_LABEL_SIZE < data[i + 1] - 3
            · have hbad2 : data.length - (i + 2) < data[i + 1] ∨ data[i + 1] < 3 ∨
                  LIST_ENTRY_LABEL_SIZE < data[i + 1] - 3 := by omega
              rw [if_pos hbad, if_pos hbad2]
            · have hbad2 : ¬(data.length - (i + 2) < data[i + 1] ∨ data[i + 1] < 3 ∨
                  LIST_ENTRY_LABEL_SIZE < data[i + 1] - 3) := by omega
              rw [if_neg hbad, if_neg hbad2]
              have hlen3 : 3 ≤ data[i + 1] := by omega
              have hfit : i + 2 + data[i + 1] ≤ data.length := by omega
              have hdd : (data.drop (i + 2)).drop data[i + 1] =
                  data.drop (i + 2 + data[i + 1]) := List.drop_drop _ _ _
              have he1 : (data.drop (i + 2)).getD 0 0 = data.getD (i + 2) 0 :=
                getD_drop data (i + 2) 0 0
              have he2 : (data.drop (i + 2)).getD 1 0 = data.getD (i + 3) 0 :=
                getD_drop data (i + 2) 1 0
              have he3 : (data.drop (i + 2)).drop 2 = data.drop (i + 4) :=
                List.drop_drop _ _ _
              have he4 : (data.drop (i + 2)).getD (data[i + 1] - 1) 0 =
                  data.getD (i + 1 + data[i + 1]) 0 := by
                rw [getD_drop, show i + 2 + (data[i + 1] - 1) = i + 1 + data[i + 1]
                  by omega]
              rw [he1, he2, he3, he4, hdd,
                ih (i + 2 + data[i + 1]) (elem + 1) _ (by omega) (by omega)]
        · have hHLf : haveList = false := by
            cases haveList
            · rfl
            · exact absurd rfl hHL
          subst hHLf
          have hft : ¬(false = true) := by simp
          rw [if_neg hft, if_neg hft]
          by_cases hover : data.length - (i + 2) < data[i + 1]
          · rw [if_pos hover]
            have hpast := list_walk_past false cap data (i + 2 + data[i + 1])
              (elem + 1) acc (by omega)
            rw [hpast]
          · rw [if_neg hover]
            have hdd : (data.drop (i + 2)).drop data[i + 1] =
                data.drop (i + 2 + data[i + 1]) := List.drop_drop _ _ _
            rw [hdd, ih (i + 2 + data[i + 1]) (elem + 1) acc (by omega) (by omega)]
      · rw [if_neg htag, if_neg htag]
    · by_cases hieq : i = data.length
      · subst hieq
        rw [List.drop_length, list_walk, dif_neg (by omega), if_pos rfl, spec_scan]
      · have hi1 : i + 1 = data.length := by omega
        have hi0 : i < data.length := by omega
        have hdrop : data.drop i = [data[i]] := by
          rw [List.drop_eq_getElem_cons hi0]
          congr 1
          rw [hi1, List.drop_length]
        rw [hdrop, list_walk, dif_neg (by omega), if_neg (by omega), spec_scan]

theorem spec_scan_entries_le (haveList : Bool) (cap : Nat) :
    ∀ fuel elem rem acc, rem.length ≤ fuel →
      (spec_scan haveList cap elem rem acc).entries.length ≤
        acc.length + (cap - elem) := by
  intro fuel
  induction fuel with
  | zero =>
    intro elem rem acc hf
    have hnil : rem = [] := by
      cases rem with
      | nil => rfl
      | cons a l => simp at hf
    subst hnil
    rw [spec_scan]
    dsimp only
    omega
  | succ n ih =>
    intro elem rem acc hf
    cases rem with
    | nil =>
      rw [spec_scan]
      dsimp only
      omega
    | cons t rest0 =>
      cases rest0 with
      | nil =>
        rw [spec_scan]
        dsimp only
        omega
      | cons len rest =>
        rw [spec_scan]
        by_cases htag : t = YKHSMAUTH_TAG_LABEL_LIST
        · rw [if_pos htag]
          by_cases hHL : haveList = true
          · subst hHL
            rw [if_pos rfl]
            by_cases hcap : cap ≤ elem
            · rw [if_pos hcap]
              dsimp only
              omega
            · rw [if_neg hcap]
              by_cases hbad : rest.length < len ∨ len < 3 ∨
                  LIST_ENTRY_LABEL_SIZE < len - 3
              · rw [if_pos hbad]
                dsimp only
                omega
              · rw [if_neg hbad]
                have hrec := ih (elem + 1) (rest.drop len)
                  (acc ++ [⟨rest.getD 0 0, rest.getD 1 0,
                    (rest.drop 2).take (len - 3) ++
                      List.replicate (LIST_ENTRY_LABEL_SIZE - (len - 3)) 0,
                    rest.getD (len - 1) 0⟩])
                  (by simp at hf ⊢; omega)
                simp only [List.length_append, List.length_cons,
                  List.length_nil] at hrec
                omega
          · have hHLf : haveList = false := by
              cases haveList
              · rfl
              · exact absurd rfl hHL
            subst hHLf
            have hft : ¬(false = true) := by simp
            rw [if_neg hft]
            by_cases hover : rest.length < len
            · rw [if_pos hover]
              dsimp only
              omega
            · rw [if_neg hover]
              have hrec := ih (elem + 1) (rest.drop len) acc
                (by simp at hf ⊢; omega)
              omega
        · rw [if_neg htag]
          dsimp only
          omega

theorem list_walk_bridge (haveList : Bool) (cap : Nat) (payload : List Nat) :
    list_walk haveList cap payload 0 0 [] = spec_scan haveList cap 0 payload [] := by
  have h := list_walk_eq_spec_scan haveList cap payload payload.length 0 0 []
    (by omega) (by omega)
  rwa [List.drop_zero] at h

theorem list_keys_eq_spec (stateOk haveList : Bool) (cap : Nat) (itemsOk : Bool)
    (recv : Except Unit (List Nat)) :
    ykhsmauth_list_keys stateOk haveList cap itemsOk recv =
      spec_list_keys stateOk haveList cap itemsOk recv := by
  simp only [ykhsmauth_list_keys, spec_list_keys]
  by_cases hv : (stateOk && itemsOk) = false
  · rw [if_pos hv, if_pos hv]
  · rw [if_neg hv, if_neg hv]
    by_cases h2 : (send_data recv).1 ≠ SUCCESS
    · rw [if_pos h2, if_pos h2]
    · rw [if_neg h2, if_neg h2]
      by_cases h3 : (send_data recv).2.2 ≠ SW_SUCCESS
      · rw [if_pos h3, if_pos h3]
      · rw [if_neg h3, if_neg h3, list_walk_bridge]

/-- C5 as amended: the list decoding checks each record in scan order — a
record with a non-list tag yields GenericError; then, when an output array
is supplied, exhausted capacity yields MemoryError; then a declared length
inconsistent with the remaining input (or below 3, or with an oversized
label portion) yields GenericError; trailing bytes after the last record
yield GenericError; otherwise the records' algorithm, touch, label and
counter fields are returned in that order with the exact record count —
and the operation never fills more output slots than the caller's
capacity. -/
theorem c5_list_keys_decoding (stateOk haveList : Bool) (cap : Nat) (itemsOk : Bool)
    (recv : Except Unit (List Nat)) :
    ykhsmauth_list_keys stateOk haveList cap itemsOk recv =
      spec_list_keys stateOk haveList cap itemsOk recv ∧
    (ykhsmauth_list_keys stateOk haveList cap itemsOk recv).entries.length ≤ cap := by
  refine ⟨list_keys_eq_spec stateOk haveList cap itemsOk recv, ?_⟩
  rw [list_keys_eq_spec]
  simp only [spec_list_keys]
  by_cases hv : (stateOk && itemsOk) = false
  · rw [if_pos hv]
    simp
  · rw [if_neg hv]
    by_cases h2 : (send_data recv).1 ≠ SUCCESS
    · rw [if_pos h2]
      simp
    · rw [if_neg h2]
      by_cases h3 : (send_data recv).2.2 ≠ SW_SUCCESS
      · rw [if_pos h3]
        simp
      · rw [if_neg h3]
        have hle := spec_scan_entries_le haveList cap (send_data recv).2.1.length 0
          (send_data recv).2.1 [] (by omega)
        simp only [List.length_nil] at hle
        dsimp only
        omega

/-- C5 as frozen is violated: in this buffer the second record's declared
length (200) exceeds the remaining bytes (0), yet with caller capacity 1
the operation reports MemoryError, not GenericError — the capacity check
runs before the record-length validation. -/
theorem c5_capacity_before_length_counterexample :
    ykhsmauth_list_keys true true 1 true
        (.ok ([0x72, 4, 1, 0, 97, 7, 0x72, 200] ++ [0x90, 0x00])) =
      ⟨MEMORY_ERROR, [⟨1, 0, [97] ++ List.replicate 64 0, 7⟩], none, true⟩ ∧
    MEMORY_ERROR ≠ GENERIC_ERROR := by
  refine ⟨?_, by decide⟩
  have hw : list_walk true 1 [0x72, 4, 1, 0, 97, 7, 0x72, 200] 0 0 [] =
      ⟨MEMORY_ERROR, [⟨1, 0, [97] ++ List.replicate 64 0, 7⟩], none⟩ := by
    rw [list_walk]
    norm_num [List.getD, YKHSMAUTH_TAG_LABEL_LIST, LIST_ENTRY_LABEL_SIZE]
    rw [list_walk]
    norm_num [List.getD, YKHSMAUTH_TAG_LABEL_LIST, LIST_ENTRY_LABEL_SIZE]
  simp only [ykhsmauth_list_keys, send_data_ok]
  rw [if_neg (by decide), if_neg (by decide), if_neg (by decide), hw]

/-- Witness for C4: an empty label (shorter than MIN_LABEL_LEN) is rejected
by all five label-taking operations without the transport being invoked,
and an over-long label fails validation. -/
theorem c4_witness :
    ykhsmauth_put true (some (List.replicate 16 0)) (some []) 38 (some [])
        (some []) 0 none (.ok []) = ⟨INVALID_PARAMS, none, false⟩ ∧
    ykhsmauth_delete true (some (List.replicate 16 0)) (some []) none (.ok []) =
      ⟨INVALID_PARAMS, none, false⟩ ∧
    ykhsmauth_calculate true (some []) (some []) (some []) (some []) (some [])
        (some 16) (some 16) (some 16) none (.ok []) =
      ⟨INVALID_PARAMS, none, none, none, none, false⟩ ∧
    ykhsmauth_get_challenge true (some []) true (some 65) (.ok []) =
      ⟨INVALID_PARAMS, none, none, false⟩ ∧
    ykhsmauth_get_pubkey true (some []) true (some 65) (.ok []) =
      ⟨INVALID_PARAMS, none, none, false⟩ ∧
    put_valid true (some (List.replicate 16 0)) (some (List.replicate 65 0))
      (some []) (some []) = false :=
  ⟨c4_invalid_params_never_sent.1 true (some (List.replicate 16 0)) (some []) 38
      (some []) (some []) 0 none (.ok []) (by decide),
   c4_invalid_params_never_sent.2.1 true (some (List.replicate 16 0)) (some [])
      none (.ok []) (by decide),
   c4_invalid_params_never_sent.2.2.1 true (some []) (some []) (some []) (some [])
      (some []) (some 16) (some 16) (some 16) none (.ok []) (by decide),
   c4_invalid_params_never_sent.2.2.2.1 true (some []) true (some 65) (.ok [])
      (by decide),
   c4_invalid_params_never_sent.2.2.2.2.1 true (some []) true (some 65) (.ok [])
      (by decide),
   (c4_invalid_params_never_sent.2.2.2.2.2 (List.replicate 65 0) true
      (some (List.replicate 16 0)) (some []) (some []) (some []) (some [])
      (some []) (some []) (some 16) (some 16) (some 16) true (some 65)
      (by right; decide)).1⟩
